import Mathlib

/-
Verification development for the event-loop core of the kuma networking
library: a shallow embedding of src/src/poll/EPoll.cpp and
src/src/EventLoopImpl.cpp, with theorems about the embedded operations.
-/

set_option maxRecDepth 4000
set_option linter.unusedVariables false

namespace Kuma

/-- Error kinds returned by the poll backend and the loop, following the
error taxonomy of the library: success sentinel, generic OS-call failure,
invalid parameter. -/
inductive KMError where
  | NOERR
  | FAILED
  | INVALID_PARAM
deriving DecidableEq

/-- Modelled from the spec: the designated unused sentinel value held in a
registration slot's descriptor field when the slot is inactive (the
INVALID_FD constant of the library headers, which are outside the two
translated source files; descriptors themselves are non-negative ints). -/
def INVALID_FD : Int := -1

/-- Modelled from the spec: portable readiness bit for readable; the spec
describes the interest mask as a bitset over readable, writable and error,
so the three portable bits are distinct single bits. -/
def KUMA_EV_READ : Nat := 1

/-- Modelled from the spec: portable readiness bit for writable. -/
def KUMA_EV_WRITE : Nat := 2

/-- Modelled from the spec: portable readiness bit for error/hangup. -/
def KUMA_EV_ERROR : Nat := 4

/-- Native epoll event bit EPOLLIN from the OS header sys/epoll.h. -/
def EPOLLIN : Nat := 1

/-- Native epoll event bit EPOLLOUT from the OS header sys/epoll.h. -/
def EPOLLOUT : Nat := 4

/-- Native epoll event bit EPOLLERR from the OS header sys/epoll.h. -/
def EPOLLERR : Nat := 8

/-- Native epoll event bit EPOLLHUP from the OS header sys/epoll.h. -/
def EPOLLHUP : Nat := 16

/-- Native epoll edge-trigger flag EPOLLET from the OS header sys/epoll.h. -/
def EPOLLET : Nat := 2147483648

/-- OS errno value for an interrupted blocking call, from the OS headers. -/
def EINTR : Nat := 4

/-- One registration-table slot: descriptor field, stored interest mask and
stored callback. The callback is modelled by an identity; none models an
empty std function object. -/
structure PollItem where
  fd : Int
  events : Nat
  cb : Option Nat
deriving DecidableEq

/-- Modelled from the spec: a retired/unused slot holds the unused sentinel
in its descriptor field, with no callback (PollItem reset in IOPoll.h,
which is outside the two translated source files). -/
def unusedItem : PollItem := { fd := INVALID_FD, events := 0, cb := none }

/-- Modelled from the spec: registering a handle larger than the current
table grows the table to make the handle a valid index, filling the
intermediate slots with the unused sentinel (resizePollItems in IOPoll.h,
which is outside the two translated source files). -/
def resizePollItems (items : List PollItem) (fd : Int) : List PollItem :=
  if (items.length : Int) ≤ fd then
    items ++ List.replicate (fd + 1 - items.length).toNat unusedItem
  else items

/-- Translation of the portable interest mask into the native epoll event
mask (EPoll get_events): starts from EPOLLET and ORs in the native bits for
each portable bit present. -/
def get_events (kuma_events : Nat) : Nat :=
  let ev := EPOLLET
  let ev := if kuma_events &&& KUMA_EV_READ ≠ 0 then ev ||| EPOLLIN else ev
  let ev := if kuma_events &&& KUMA_EV_WRITE ≠ 0 then ev ||| EPOLLOUT else ev
  let ev := if kuma_events &&& KUMA_EV_ERROR ≠ 0 then ev ||| EPOLLERR ||| EPOLLHUP else ev
  ev

/-- Reverse translation from the native epoll event mask to the portable
readiness mask (EPoll get_kuma_events). -/
def get_kuma_events (events : Nat) : Nat :=
  let ev := 0
  let ev := if events &&& EPOLLIN ≠ 0 then ev ||| KUMA_EV_READ else ev
  let ev := if events &&& EPOLLOUT ≠ 0 then ev ||| KUMA_EV_WRITE else ev
  let ev := if events &&& (EPOLLERR ||| EPOLLHUP) ≠ 0 then ev ||| KUMA_EV_ERROR else ev
  ev

/-- EPoll registerFd. The outcome of the OS-level epoll ctl call is the
oracle parameter ctl-ok; the slot is written before that call is made, as
in the source. -/
def registerFd (items : List PollItem) (fd : Int) (events : Nat) (cb : Option Nat)
    (ctl_ok : Bool) : KMError × List PollItem :=
  if fd < 0 then (KMError.INVALID_PARAM, items)
  else
    let items1 := resizePollItems items fd
    let items2 := items1.set fd.toNat { fd := fd, events := events, cb := cb }
    if ctl_ok then (KMError.NOERR, items2) else (KMError.FAILED, items2)

/-- EPoll unregisterFd. The outcome of the OS-level epoll ctl delete call
is the oracle parameter ctl-ok, which the source ignores. -/
def unregisterFd (items : List PollItem) (fd : Int) (ctl_ok : Bool) :
    KMError × List PollItem :=
  let max_fd : Int := (items.length : Int) - 1
  if fd < 0 ∨ fd > max_fd then (KMError.INVALID_PARAM, items)
  else
    if fd < max_fd then (KMError.NOERR, items.set fd.toNat unusedItem)
    else (KMError.NOERR, items.dropLast)

/-- EPoll updateFd. The outcome of the OS-level epoll ctl modify call is
the oracle parameter ctl-ok; the stored interest mask is overwritten only
after that call succeeds, as in the source. -/
def updateFd (items : List PollItem) (fd : Int) (events : Nat) (ctl_ok : Bool) :
    KMError × List PollItem :=
  if fd < 0 ∨ (items.length : Int) ≤ fd ∨ (items.getD fd.toNat unusedItem).fd = INVALID_FD then
    (KMError.FAILED, items)
  else if ctl_ok then
    (KMError.NOERR, items.set fd.toNat { items.getD fd.toNat unusedItem with events := events })
  else (KMError.FAILED, items)

/-- Outcome of the OS-level epoll wait call: either a negative return with
the given errno, or a batch of reported (descriptor, native event mask)
pairs. -/
inductive PollOutcome where
  | err (errno : Nat)
  | ready (evs : List (Nat × Nat))
deriving DecidableEq

/-- Observable result of EPoll wait: the returned error kind, the list of
(callback identity, portable readiness mask) dispatches, and whether an
error-level log line was emitted. -/
structure WaitResult where
  ret : KMError
  dispatched : List (Nat × Nat)
  errorLogged : Bool
deriving DecidableEq

/-- EPoll wait. On a negative OS return nothing is dispatched and an
error-level log line is emitted exactly when errno is not EINTR; otherwise
each reported descriptor that is within table bounds has its stored
callback dispatched with the reverse-translated readiness mask. The return
value is the success sentinel in every case. -/
def wait (items : List PollItem) (wait_ms : Nat) (outcome : PollOutcome) : WaitResult :=
  match outcome with
  | .err e => { ret := KMError.NOERR, dispatched := [], errorLogged := e != EINTR }
  | .ready evs =>
    { ret := KMError.NOERR
      dispatched := evs.filterMap fun fe =>
        if h : fe.1 < items.length then
          match (items.get ⟨fe.1, h⟩).cb with
          | some c => some (c, get_kuma_events fe.2)
          | none => none
        else none
      errorLogged := false }

/-- Observable actions of the event loop: a task executed from the task
queue, the timer-manager expiry check, the poll wait call with its budget,
and a lifecycle listener's stop notification. -/
inductive LoopEvent where
  | task (id : Nat)
  | expire
  | wait (ms : Nat)
  | loopStopped (l : Nat)
deriving DecidableEq

/-- Event-loop state touched by the translated code: the cross-thread task
queue (tasks modelled by identities, none modelling an empty std function
object), the registered lifecycle listeners and the stop flag. -/
structure LoopState where
  cb_queue : List (Option Nat)
  listeners : List Nat
  stop_loop : Bool
deriving DecidableEq

/-- EventLoopImpl loopOnce. The timer manager is the oracle parameter
checkExpire, modelled from the spec as an arbitrary transformation of the
wait budget (TimerManager is an external collaborator outside the two
translated source files); the source then clamps the budget back to the
caller-supplied maximum. Returns the new state and the trace of observable
actions: the drained tasks in FIFO order, the expiry check, then the poll
wait call with its final budget. -/
def loopOnce (st : LoopState) (max_wait_ms : Nat) (checkExpire : Nat → Nat) :
    LoopState × List LoopEvent :=
  let taskEvs := st.cb_queue.filterMap fun cb => cb.map LoopEvent.task
  let wait_ms := checkExpire max_wait_ms
  let wait_ms2 := if wait_ms > max_wait_ms then max_wait_ms else wait_ms
  ({ st with cb_queue := [] }, taskEvs ++ [LoopEvent.expire, LoopEvent.wait wait_ms2])

/-- An action performed by a non-owning thread interleaved with the loop:
enqueue a task on the concurrent queue, or set the stop flag
(EventLoopImpl stop). -/
inductive EnvAction where
  | enqueue (t : Option Nat)
  | setStop
deriving DecidableEq

/-- Effect of one cross-thread action on the loop state. -/
def applyEnv (st : LoopState) (a : EnvAction) : LoopState :=
  match a with
  | .enqueue t => { st with cb_queue := st.cb_queue ++ [t] }
  | .setStop => { st with stop_loop := true }

/-- Tasks enqueued by a batch of cross-thread actions, in order. -/
def enqueues (acts : List EnvAction) : List (Option Nat) :=
  acts.filterMap fun a =>
    match a with
    | .enqueue t => some t
    | .setStop => none

/-- Exit path of EventLoopImpl loop once the stop flag has been observed:
one final complete drain of the task queue, then every registered
listener's stop notification, then the listener set is cleared. -/
def loopFinish (st : LoopState) : LoopState × List LoopEvent :=
  ({ st with cb_queue := [], listeners := [] },
    (st.cb_queue.filterMap fun cb => cb.map LoopEvent.task) ++
      st.listeners.map LoopEvent.loopStopped)

/-- EventLoopImpl loop, driven by a schedule of cross-thread action
batches: before each check of the stop flag one batch is applied; when the
flag is observed set, the exit path runs; a schedule exhausted before the
flag is observed leaves the run undetermined (none), since the real loop
would keep iterating. -/
def loop : List (List EnvAction) → LoopState → Nat → (Nat → Nat) →
    Option (LoopState × List LoopEvent)
  | [], st, _, _ => if st.stop_loop then some (loopFinish st) else none
  | acts :: rest, st, mw, ce =>
    let st1 := acts.foldl applyEnv st
    if st1.stop_loop then some (loopFinish st1)
    else
      let r := loopOnce st1 mw ce
      (loop rest r.1 mw ce).map fun r2 => (r2.1, r.2 ++ r2.2)

/-- Identities of the callable tasks in a queue, in order. -/
def taskIds (q : List (Option Nat)) : List Nat := q.filterMap id

/-- Task-execution events of a trace, in order. -/
def taskEvents (evs : List LoopEvent) : List Nat :=
  evs.filterMap fun e =>
    match e with
    | .task i => some i
    | _ => none

/-- Listener stop notifications of a trace, in order. -/
def stopEvents (evs : List LoopEvent) : List Nat :=
  evs.filterMap fun e =>
    match e with
    | .loopStopped l => some l
    | _ => none

/-- Joint state of the two threads in one runInEventLoopSync rendezvous
from a non-owning thread: whether the wrapper task is still in the queue,
whether the wrapped task body has executed (its side effects are visible),
whether the ready flag of the handshake has been set (under the mutex),
and whether the calling thread has returned from the call. -/
structure SyncState where
  queued : Bool
  taskRan : Bool
  ready : Bool
  returned : Bool
deriving DecidableEq

/-- State right after the non-owning caller has enqueued the wrapper and
signalled the wakeup: wrapper queued, task not yet run, handshake not yet
signalled, caller blocked in the condition wait. -/
def initSync : SyncState :=
  { queued := true, taskRan := false, ready := false, returned := false }

/-- Interleaved steps of the runInEventLoopSync rendezvous. The owning
thread dequeues the wrapper and runs the wrapped task, then — strictly
afterwards in program order — sets the ready flag and signals the
condition; the calling thread leaves its condition wait only once the
ready flag is observed set. -/
inductive SyncStep : SyncState → SyncState → Prop where
  | dequeueRun (s : SyncState) (h : s.queued = true) :
      SyncStep s { s with queued := false, taskRan := true }
  | signalReady (s : SyncState) (h1 : s.queued = false) (h2 : s.taskRan = true) :
      SyncStep s { s with ready := true }
  | callerReturn (s : SyncState) (h : s.ready = true) :
      SyncStep s { s with returned := true }

example : loop [[EnvAction.enqueue (some 5), EnvAction.setStop]]
    ⟨[some 1], [7], false⟩ 10 (fun n => n) =
    some (⟨[], [], true⟩,
      [LoopEvent.task 1, LoopEvent.task 5, LoopEvent.loopStopped 7]) := by decide
example : (loopOnce ⟨[some 1, none, some 2], [7], false⟩ 10 (fun _ => 25)).2 =
    [LoopEvent.task 1, LoopEvent.task 2, LoopEvent.expire, LoopEvent.wait 10] := by decide
example : (loopOnce ⟨[some 1], [7], false⟩ 10 (fun _ => 3)).2 =
    [LoopEvent.task 1, LoopEvent.expire, LoopEvent.wait 3] := by decide

lemma and_or_mask_ne_zero {e a b : Nat} (h : e &&& a ≠ 0 ∨ e &&& b ≠ 0) :
    e &&& (a ||| b) ≠ 0 := by
  intro hz
  have key : ∀ i, Nat.testBit (e &&& (a ||| b)) i = false := by
    intro i
    rw [hz]
    exact Nat.zero_testBit i
  rcases h with h | h
  · obtain ⟨i, hi⟩ := Nat.ne_zero_implies_bit_true h
    have hk := key i
    simp only [Nat.testBit_and, Bool.and_eq_true] at hi
    simp [Nat.testBit_and, Nat.testBit_or, hi.1, hi.2] at hk
  · obtain ⟨i, hi⟩ := Nat.ne_zero_implies_bit_true h
    have hk := key i
    simp only [Nat.testBit_and, Bool.and_eq_true] at hi
    simp [Nat.testBit_and, Nat.testBit_or, hi.1, hi.2] at hk

example : (registerFd [] 1 3 (some 9) true).1 = KMError.NOERR := by decide
example : (registerFd [] 1 3 (some 9) true).2 =
    [unusedItem, { fd := 1, events := 3, cb := some 9 }] := by decide
example : (registerFd [⟨0, 1, some 10⟩] 0 2 (some 11) false).2 =
    [{ fd := 0, events := 2, cb := some 11 }] := by decide
example : (unregisterFd [⟨0, 1, some 10⟩, ⟨1, 2, some 11⟩] 1 false).2 =
    [⟨0, 1, some 10⟩] := by decide
example : (unregisterFd [⟨0, 1, some 10⟩, ⟨1, 2, some 11⟩] 0 true).2 =
    [unusedItem, ⟨1, 2, some 11⟩] := by decide
example : (updateFd [] (-1) 1 true).1 = KMError.FAILED := by decide
example : get_kuma_events (get_events 5) = 5 := by decide
example : (wait [⟨0, 1, some 10⟩] 50 (.ready [(0, 1)])).dispatched = [(10, 1)] := by decide
example : (wait [] 50 (.err 4)).errorLogged = false := by decide

/-- Claim C1 counterexample: on an OS-level registration failure,
registerFd does return the generic failure kind, but the registration
slot is not left unchanged — with a slot previously holding descriptor 0,
mask 1 and callback 10, a failing re-registration with mask 2 and
callback 11 leaves the new contents in the table. -/
theorem registerFd_os_failure_slot_unchanged_cex :
    (registerFd [⟨0, 1, some 10⟩] 0 2 (some 11) false).1 = KMError.FAILED ∧
    (registerFd [⟨0, 1, some 10⟩] 0 2 (some 11) false).2 ≠ [⟨0, 1, some 10⟩] ∧
    (registerFd [⟨0, 1, some 10⟩] 0 2 (some 11) false).2 =
      [{ fd := 0, events := 2, cb := some 11 }] := by decide

/-- Claim C1 (amended): for every registerFd call with a non-negative
descriptor, if the OS-level registration fails then registerFd returns the
generic failure kind, but the slot has already been overwritten with the
new descriptor, interest mask and callback before the OS call, and that
stored table is identical to the one produced in the success case. -/
theorem registerFd_os_failure_returns_failed :
    ∀ items fd events cb, 0 ≤ fd →
      (registerFd items fd events cb false).1 = KMError.FAILED ∧
      (registerFd items fd events cb false).2 =
        (resizePollItems items fd).set fd.toNat { fd := fd, events := events, cb := cb } ∧
      (registerFd items fd events cb true).1 = KMError.NOERR ∧
      (registerFd items fd events cb true).2 = (registerFd items fd events cb false).2 := by
  intro items fd events cb h
  simp [registerFd, not_lt.mpr h]

/-- Witness for the amended claim C1 at a concrete input. -/
theorem registerFd_os_failure_returns_failed_witness :
    (registerFd [⟨0, 1, some 10⟩] 0 2 (some 11) false).1 = KMError.FAILED ∧
    (registerFd [⟨0, 1, some 10⟩] 0 2 (some 11) false).2 =
      (resizePollItems [⟨0, 1, some 10⟩] 0).set (0 : Int).toNat
        { fd := 0, events := 2, cb := some 11 } ∧
    (registerFd [⟨0, 1, some 10⟩] 0 2 (some 11) true).1 = KMError.NOERR ∧
    (registerFd [⟨0, 1, some 10⟩] 0 2 (some 11) true).2 =
      (registerFd [⟨0, 1, some 10⟩] 0 2 (some 11) false).2 :=
  registerFd_os_failure_returns_failed [⟨0, 1, some 10⟩] 0 2 (some 11) (by decide)

/-- Claim C2: for every wait-time and every outcome of the OS poll call,
wait returns the success sentinel; an interrupted OS return (errno EINTR)
dispatches no callbacks and logs no error, and any other negative OS
return dispatches no callbacks, is logged at error level, yet is still
reported as success. -/
theorem wait_reports_success (items : List PollItem) (wt : Nat) :
    (∀ oc, (wait items wt oc).ret = KMError.NOERR) ∧
    (wait items wt (.err EINTR)).dispatched = [] ∧
    (wait items wt (.err EINTR)).errorLogged = false ∧
    ∀ e, e ≠ EINTR →
      (wait items wt (.err e)).dispatched = [] ∧
      (wait items wt (.err e)).errorLogged = true := by
  refine ⟨fun oc => ?_, rfl, by simp [wait], fun e he => ⟨rfl, ?_⟩⟩
  · cases oc <;> rfl
  · simp [wait, he]

/-- Witness for claim C2 at a concrete input. -/
theorem wait_reports_success_witness :
    (wait [] 100 (.err 5)).ret = KMError.NOERR ∧
    (wait [] 100 (.err 5)).dispatched = [] ∧
    (wait [] 100 (.err 5)).errorLogged = true :=
  ⟨(wait_reports_success [] 100).1 (.err 5),
   ((wait_reports_success [] 100).2.2.2 5 (by decide)).1,
   ((wait_reports_success [] 100).2.2.2 5 (by decide)).2⟩

/-- Claim C8 counterexample: updateFd on an empty table with descriptor -1
returns the generic FAILED kind, not INVALID_PARAM, contradicting the
claim that out-of-range descriptors fail with the InvalidParameter kind. -/
theorem updateFd_invalid_param_cex :
    (updateFd [] (-1) 1 true).1 = KMError.FAILED ∧
    KMError.FAILED ≠ KMError.INVALID_PARAM := by decide

/-- Claim C8 (amended): for every updateFd call whose descriptor is
negative or out of the table's valid index range, the call fails with the
generic FAILED (OperationFailed) kind — not InvalidParameter — and the
table is unchanged. -/
theorem updateFd_out_of_range_returns_failed :
    ∀ items fd events ok, (fd < 0 ∨ (items.length : Int) ≤ fd) →
      (updateFd items fd events ok).1 = KMError.FAILED ∧
      (updateFd items fd events ok).2 = items := by
  intro items fd events ok h
  rcases h with h | h <;> simp [updateFd, h]

/-- Witness for the amended claim C8 at a concrete input. -/
theorem updateFd_out_of_range_returns_failed_witness :
    (updateFd [] (-1) 1 true).1 = KMError.FAILED ∧
    (updateFd [] (-1) 1 true).2 = [] :=
  updateFd_out_of_range_returns_failed [] (-1) 1 true (by decide)

/-- Claim C7: the translation to the native mask always includes the
edge-trigger flag (for every mask, the empty one included); a portable
mask containing the ERROR bit translates to a native mask containing both
the hard-error and the hang-up native bits; and the reverse translation
maps a native mask containing either native condition back to a portable
mask containing the ERROR bit. -/
theorem get_events_error_translation :
    (∀ m, get_events m &&& EPOLLET = EPOLLET) ∧
    (∀ m, m &&& KUMA_EV_ERROR ≠ 0 →
      get_events m &&& EPOLLERR = EPOLLERR ∧ get_events m &&& EPOLLHUP = EPOLLHUP) ∧
    (∀ e, e &&& EPOLLERR ≠ 0 ∨ e &&& EPOLLHUP ≠ 0 →
      get_kuma_events e &&& KUMA_EV_ERROR = KUMA_EV_ERROR) := by
  refine ⟨fun m => ?_, fun m h => ?_, fun e h => ?_⟩
  · unfold get_events
    split_ifs <;> decide
  · unfold get_events
    split_ifs with h1 h2 h3 <;> first | exact absurd h (by assumption) | decide
  · have hne : e &&& (EPOLLERR ||| EPOLLHUP) ≠ 0 := and_or_mask_ne_zero h
    unfold get_kuma_events
    split_ifs <;> first | exact absurd hne (by assumption) | decide

/-- Witness for claim C7 at concrete inputs: the empty portable mask still
gains the edge-trigger flag, the ERROR bit maps to both native conditions,
and a native mask with only the hang-up bit maps back to ERROR. -/
theorem get_events_error_translation_witness :
    get_events 0 &&& EPOLLET = EPOLLET ∧
    (get_events 4 &&& EPOLLERR = EPOLLERR ∧ get_events 4 &&& EPOLLHUP = EPOLLHUP) ∧
    get_kuma_events 16 &&& KUMA_EV_ERROR = KUMA_EV_ERROR :=
  ⟨get_events_error_translation.1 0,
   get_events_error_translation.2.1 4 (by decide),
   get_events_error_translation.2.2 16 (Or.inr (by decide))⟩

/-- Claim C10: for every portable mask composed only of the READ, WRITE
and ERROR bits (all masks below 8), translating to the native mask and
back is the identity; the unconditionally added edge-trigger flag is
invisible to the reverse translation. -/
theorem get_kuma_events_roundtrip : ∀ m, m < 8 → get_kuma_events (get_events m) = m := by
  decide

/-- Witness for claim C10 at a concrete input. -/
theorem get_kuma_events_roundtrip_witness :
    get_kuma_events (get_events 5) = 5 :=
  get_kuma_events_roundtrip 5 (by decide)

/-- Claim C3: unregisterFd fails with INVALID_PARAM and leaves the table
unchanged when the descriptor is negative or beyond the current maximum
index; otherwise it returns success regardless of the OS-level
deregistration outcome, and the table shrinks by one slot when the
descriptor is the current maximum index, while a lower-indexed descriptor
leaves the length unchanged with that slot set to the unused sentinel. -/
theorem unregisterFd_spec :
    ∀ items fd ok,
      ((fd < 0 ∨ (items.length : Int) - 1 < fd) →
        unregisterFd items fd ok = (KMError.INVALID_PARAM, items)) ∧
      (0 ≤ fd → fd ≤ (items.length : Int) - 1 →
        (unregisterFd items fd ok).1 = KMError.NOERR ∧
        (fd = (items.length : Int) - 1 →
          (unregisterFd items fd ok).2.length = items.length - 1) ∧
        (fd < (items.length : Int) - 1 →
          (unregisterFd items fd ok).2.length = items.length ∧
          (unregisterFd items fd ok).2.getD fd.toNat unusedItem = unusedItem)) := by
  intro items fd ok
  constructor
  · intro h
    simp only [unregisterFd]
    rw [if_pos h]
  · intro h0 h1
    have hc : ¬(fd < 0 ∨ fd > (items.length : Int) - 1) := by
      push_neg
      exact ⟨h0, h1⟩
    refine ⟨?_, ?_, ?_⟩
    · simp only [unregisterFd]
      rw [if_neg hc]
      split_ifs <;> rfl
    · intro heq
      simp only [unregisterFd]
      rw [if_neg hc, if_neg (by omega)]
      simp
    · intro hlt
      have hfd : fd.toNat < items.length := by omega
      simp only [unregisterFd]
      rw [if_neg hc, if_pos hlt]
      exact ⟨List.length_set items fd.toNat unusedItem, by
        simp [List.getD_eq_getElem?_getD, List.getElem?_set_self hfd]⟩

/-- Witness for claim C3 at concrete inputs: an out-of-range descriptor,
the maximum-index descriptor, and a lower-indexed descriptor. -/
theorem unregisterFd_spec_witness :
    unregisterFd [⟨0, 1, some 10⟩, ⟨1, 2, some 11⟩] 5 true =
      (KMError.INVALID_PARAM, [⟨0, 1, some 10⟩, ⟨1, 2, some 11⟩]) ∧
    (unregisterFd [⟨0, 1, some 10⟩, ⟨1, 2, some 11⟩] 1 true).1 = KMError.NOERR ∧
    (unregisterFd [⟨0, 1, some 10⟩, ⟨1, 2, some 11⟩] 1 true).2.length = 1 ∧
    (unregisterFd [⟨0, 1, some 10⟩, ⟨1, 2, some 11⟩] 0 false).2.length = 2 ∧
    (unregisterFd [⟨0, 1, some 10⟩, ⟨1, 2, some 11⟩] 0 false).2.getD (0 : Int).toNat
      unusedItem = unusedItem :=
  ⟨(unregisterFd_spec [⟨0, 1, some 10⟩, ⟨1, 2, some 11⟩] 5 true).1 (by decide),
   ((unregisterFd_spec [⟨0, 1, some 10⟩, ⟨1, 2, some 11⟩] 1 true).2 (by decide) (by decide)).1,
   ((unregisterFd_spec [⟨0, 1, some 10⟩, ⟨1, 2, some 11⟩] 1 true).2 (by decide) (by decide)).2.1
     (by decide),
   (((unregisterFd_spec [⟨0, 1, some 10⟩, ⟨1, 2, some 11⟩] 0 false).2 (by decide) (by decide)).2.2
     (by decide)).1,
   (((unregisterFd_spec [⟨0, 1, some 10⟩, ⟨1, 2, some 11⟩] 0 false).2 (by decide) (by decide)).2.2
     (by decide)).2⟩

/-- Claim C6: for every updateFd call on an in-range descriptor whose slot
is active, an OS-level modify failure yields the generic FAILED kind with
the whole table (hence the stored interest mask) unchanged, while a
successful modify yields success with the stored interest mask overwritten
by the new mask (and the rest of the slot intact). -/
theorem updateFd_spec :
    ∀ items fd events, 0 ≤ fd → fd < (items.length : Int) →
      (items.getD fd.toNat unusedItem).fd ≠ INVALID_FD →
      (updateFd items fd events false).1 = KMError.FAILED ∧
      (updateFd items fd events false).2 = items ∧
      (updateFd items fd events true).1 = KMError.NOERR ∧
      (updateFd items fd events true).2.getD fd.toNat unusedItem =
        { items.getD fd.toNat unusedItem with events := events } := by
  intro items fd events h0 h1 h2
  have hc : ¬(fd < 0 ∨ (items.length : Int) ≤ fd ∨
      (items.getD fd.toNat unusedItem).fd = INVALID_FD) := by
    push_neg
    exact ⟨h0, h1, h2⟩
  have hfd : fd.toNat < items.length := by omega
  refine ⟨?_, ?_, ?_, ?_⟩
  · simp only [updateFd]
    rw [if_neg hc]
    rfl
  · simp only [updateFd]
    rw [if_neg hc]
    rfl
  · simp only [updateFd]
    rw [if_neg hc]
    rfl
  · simp only [updateFd]
    rw [if_neg hc]
    simp [List.getD_eq_getElem?_getD, List.getElem?_set_self hfd]

lemma foldl_applyEnv_queue : ∀ (acts : List EnvAction) (st : LoopState),
    (acts.foldl applyEnv st).cb_queue = st.cb_queue ++ enqueues acts := by
  intro acts
  induction acts with
  | nil => intro st; simp [enqueues]
  | cons a rest ih =>
    intro st
    cases a with
    | enqueue t =>
      rw [List.foldl_cons, ih]
      simp [applyEnv, enqueues]
    | setStop =>
      rw [List.foldl_cons, ih]
      simp [applyEnv, enqueues]

lemma foldl_applyEnv_listeners : ∀ (acts : List EnvAction) (st : LoopState),
    (acts.foldl applyEnv st).listeners = st.listeners := by
  intro acts
  induction acts with
  | nil => intro st; rfl
  | cons a rest ih =>
    intro st
    cases a with
    | enqueue t =>
      rw [List.foldl_cons, ih]
      rfl
    | setStop =>
      rw [List.foldl_cons, ih]
      rfl

lemma taskEvents_append (a b : List LoopEvent) :
    taskEvents (a ++ b) = taskEvents a ++ taskEvents b := by
  simp [taskEvents]

lemma stopEvents_append (a b : List LoopEvent) :
    stopEvents (a ++ b) = stopEvents a ++ stopEvents b := by
  simp [stopEvents]

lemma taskEvents_tasks (q : List (Option Nat)) :
    taskEvents (q.filterMap fun cb => cb.map LoopEvent.task) = taskIds q := by
  induction q with
  | nil => rfl
  | cons c rest ih => cases c <;> simpa [taskEvents, taskIds] using ih

lemma stopEvents_tasks (q : List (Option Nat)) :
    stopEvents (q.filterMap fun cb => cb.map LoopEvent.task) = [] := by
  induction q with
  | nil => rfl
  | cons c rest ih => cases c <;> simpa [stopEvents] using ih

lemma stopEvents_stops (ls : List Nat) :
    stopEvents (ls.map LoopEvent.loopStopped) = ls := by
  induction ls with
  | nil => rfl
  | cons l rest ih => simpa [stopEvents] using ih

lemma taskEvents_stops (ls : List Nat) :
    taskEvents (ls.map LoopEvent.loopStopped) = [] := by
  induction ls with
  | nil => rfl
  | cons l rest _ => simp [taskEvents]

lemma loopFinish_spec (st : LoopState) :
    (loopFinish st).1.cb_queue = [] ∧ (loopFinish st).1.listeners = [] ∧
    stopEvents (loopFinish st).2 = st.listeners ∧
    taskEvents (loopFinish st).2 = taskIds st.cb_queue := by
  refine ⟨rfl, rfl, ?_, ?_⟩
  · simp [loopFinish, stopEvents_append, stopEvents_tasks, stopEvents_stops]
  · simp [loopFinish, taskEvents_append, taskEvents_tasks, taskEvents_stops]

lemma taskEvents_expire_wait (w : Nat) :
    taskEvents [LoopEvent.expire, LoopEvent.wait w] = [] := rfl

lemma stopEvents_expire_wait (w : Nat) :
    stopEvents [LoopEvent.expire, LoopEvent.wait w] = [] := rfl

lemma loopOnce_fst (st : LoopState) (mw : Nat) (ce : Nat → Nat) :
    (loopOnce st mw ce).1 = { st with cb_queue := [] } := rfl

lemma loopOnce_trace_taskEvents (st : LoopState) (mw : Nat) (ce : Nat → Nat) :
    taskEvents (loopOnce st mw ce).2 = taskIds st.cb_queue := by
  simp only [loopOnce]
  rw [taskEvents_append, taskEvents_tasks, taskEvents_expire_wait, List.append_nil]

lemma loopOnce_trace_stopEvents (st : LoopState) (mw : Nat) (ce : Nat → Nat) :
    stopEvents (loopOnce st mw ce).2 = [] := by
  simp only [loopOnce]
  rw [stopEvents_append, stopEvents_tasks, stopEvents_expire_wait]
  rfl

lemma sync_inv : ∀ s, Relation.ReflTransGen SyncStep initSync s →
    (s.ready = true → s.taskRan = true) ∧ (s.returned = true → s.taskRan = true) := by
  intro s h
  induction h with
  | refl => exact ⟨by simp [initSync], by simp [initSync]⟩
  | tail hab hbc ih =>
    cases hbc with
    | dequeueRun h => exact ⟨fun _ => rfl, fun _ => rfl⟩
    | signalReady h1 h2 => exact ⟨fun _ => h2, fun _ => h2⟩
    | callerReturn h => exact ⟨fun _ => ih.1 h, fun _ => ih.1 h⟩

/-- Witness for claim C6 at a concrete input. -/
theorem updateFd_spec_witness :
    (updateFd [⟨0, 1, some 10⟩] 0 3 false).1 = KMError.FAILED ∧
    (updateFd [⟨0, 1, some 10⟩] 0 3 false).2 = [⟨0, 1, some 10⟩] ∧
    (updateFd [⟨0, 1, some 10⟩] 0 3 true).1 = KMError.NOERR ∧
    (updateFd [⟨0, 1, some 10⟩] 0 3 true).2.getD (0 : Int).toNat unusedItem =
      { ([⟨0, 1, some 10⟩] : List PollItem).getD (0 : Int).toNat unusedItem with
        events := 3 } :=
  updateFd_spec [⟨0, 1, some 10⟩] 0 3 (by decide) (by decide) (by decide)

/-- Claim C4: every loopOnce invocation first dequeues and executes every
task currently in the task queue in FIFO order, then performs the timer
expiry check, and then calls the poll wait with a budget — the
timer-adjusted budget clamped back to the caller-supplied maximum — that
never exceeds the caller-supplied maximum wait. -/
theorem loopOnce_drain_expire_clamped_wait :
    ∀ st mw ce, ∃ w,
      loopOnce st mw ce =
        ({ st with cb_queue := [] },
          (st.cb_queue.filterMap fun cb => cb.map LoopEvent.task) ++
            [LoopEvent.expire, LoopEvent.wait w]) ∧
      w ≤ mw := by
  intro st mw ce
  refine ⟨if ce mw > mw then mw else ce mw, rfl, ?_⟩
  split_ifs with h
  · exact Nat.le_refl mw
  · exact Nat.le_of_not_lt h

/-- Claim C5: whenever loop returns after the stop flag is observed, the
task queue has been fully drained (its final state is empty and the trace
contains, in FIFO order, every callable task from the initial queue and
from every cross-thread batch applied before the stop flag was observed),
the stop notification of every registered listener has been delivered
exactly once (the trace's stop notifications are exactly the registered
listener list), and the listener set is left empty. -/
theorem loop_stop_drain_and_listeners :
    ∀ env st mw ce r, loop env st mw ce = some r →
      r.1.cb_queue = [] ∧ r.1.listeners = [] ∧
      stopEvents r.2 = st.listeners ∧
      ∃ pre suf, env = pre ++ suf ∧
        taskEvents r.2 = taskIds (st.cb_queue ++ (pre.map enqueues).flatten) := by
  intro env
  induction env with
  | nil =>
    intro st mw ce r h
    simp only [loop] at h
    split_ifs at h with hs
    have he := Option.some.inj h
    subst he
    exact ⟨(loopFinish_spec st).1, (loopFinish_spec st).2.1, (loopFinish_spec st).2.2.1,
      [], [], rfl, by rw [(loopFinish_spec st).2.2.2]; simp⟩
  | cons acts rest ih =>
    intro st mw ce r h
    simp only [loop] at h
    split_ifs at h with hs
    · have he := Option.some.inj h
      subst he
      refine ⟨(loopFinish_spec _).1, (loopFinish_spec _).2.1, ?_, [acts], rest, rfl, ?_⟩
      · rw [(loopFinish_spec _).2.2.1, foldl_applyEnv_listeners]
      · rw [(loopFinish_spec _).2.2.2, foldl_applyEnv_queue]
        simp [taskIds, List.filterMap_append]
    · obtain ⟨r2, hr2, hf⟩ := Option.map_eq_some'.mp h
      subst hf
      obtain ⟨hq, hl, hstop, pre, suf, henv, htasks⟩ := ih _ mw ce r2 hr2
      refine ⟨hq, hl, ?_, acts :: pre, suf, by rw [henv]; rfl, ?_⟩
      · rw [stopEvents_append, loopOnce_trace_stopEvents, List.nil_append, hstop,
          loopOnce_fst]
        exact foldl_applyEnv_listeners acts st
      · rw [taskEvents_append, loopOnce_trace_taskEvents, htasks, loopOnce_fst,
          foldl_applyEnv_queue]
        simp [taskIds, List.filterMap_append]

/-- Witness for claim C5 at a concrete input: one cross-thread batch
enqueues a task and sets the stop flag; the run drains the initial task,
the concurrently enqueued task, and notifies the single listener. -/
theorem loop_stop_drain_and_listeners_witness :
    (⟨[], [], true⟩ : LoopState).cb_queue = [] ∧
    (⟨[], [], true⟩ : LoopState).listeners = [] ∧
    stopEvents [LoopEvent.task 1, LoopEvent.task 5, LoopEvent.loopStopped 7] = [7] ∧
    ∃ pre suf,
      ([[EnvAction.enqueue (some 5), EnvAction.setStop]] : List (List EnvAction)) =
        pre ++ suf ∧
      taskEvents [LoopEvent.task 1, LoopEvent.task 5, LoopEvent.loopStopped 7] =
        taskIds ([some 1] ++ (pre.map enqueues).flatten) :=
  loop_stop_drain_and_listeners [[EnvAction.enqueue (some 5), EnvAction.setStop]]
    ⟨[some 1], [7], false⟩ 10 (fun n => n)
    (⟨[], [], true⟩, [LoopEvent.task 1, LoopEvent.task 5, LoopEvent.loopStopped 7])
    (by decide)

/-- Claim C9: in the runInEventLoopSync rendezvous from a non-owning
thread, in every state reachable from the post-enqueue state in which the
calling thread has returned from the synchronous call, the submitted task
has fully run — the owning thread executed it and signalled the one-shot
completion handshake on which the caller was blocked, and the handshake is
signalled only after the task body finished. -/
theorem runInEventLoopSync_completion :
    ∀ s, Relation.ReflTransGen SyncStep initSync s →
      s.returned = true → s.taskRan = true := by
  intro s h
  exact (sync_inv s h).2

/-- Witness for claim C9: the three-step run dequeue-and-run, signal,
caller-return reaches a returned state, and the theorem yields that the
task has run there. -/
theorem runInEventLoopSync_completion_witness :
    ({ queued := false, taskRan := true, ready := true, returned := true } :
      SyncState).taskRan = true :=
  runInEventLoopSync_completion
    { queued := false, taskRan := true, ready := true, returned := true }
    (Relation.ReflTransGen.tail
      (Relation.ReflTransGen.tail
        (Relation.ReflTransGen.tail Relation.ReflTransGen.refl
          (SyncStep.dequeueRun initSync rfl))
        (SyncStep.signalReady _ rfl rfl))
      (SyncStep.callerReturn _ rfl))
    rfl

end Kuma
